import Mathlib

/-!
Verification of the VPAID callback ad unit (`src/VpaidCallbackAd.js`).

The embedding models the protocol core of the `VpaidAd` object: the
`eventCallbacks_` registry (a JS object mapping event-name strings to
host-supplied handler functions, or to `null` after `unsubscribe`) and the
`attributes_` map (a JS object mapping a fixed set of attribute-name strings
to primitive values), together with every public lifecycle operation.

JS objects are modelled as association lists with JS property semantics:
assignment replaces the value when the key is present and appends the key
otherwise; the `in` operator tests key presence regardless of the stored
value; reading an absent key yields `undefined` (here `none`). Calling a
property that is not a function (absent, hence `undefined`, or `null`) is a
TypeError; an operation result records whether such an exception occurred
via the `ok` flag, along with the list of handler invocations performed and
the messages written to the log sink. Handlers are identified opaquely by
natural numbers. DOM-only helpers (`log`, `addButtonListeners_`,
`fillProperties_`, `setupScrollListener_`) touch no protocol state and are
modelled as no-ops on it; `renderSlot_`'s effect on the stored slot
reference is kept.
-/

namespace Vpaid

/-- A host-supplied handler function, identified opaquely. -/
abbrev Handler := Nat

/-- Primitive values stored in the `attributes_` object. -/
inductive Value where
  | vInt : Int → Value
  | vStr : String → Value
  | vBool : Bool → Value
deriving DecidableEq

/-- JS truthiness of a property read (`undefined`, i.e. an absent key, is falsy). -/
def truthy : Option Value → Bool
  | none => false
  | some (Value.vInt n) => n != 0
  | some (Value.vStr s) => s != ""
  | some (Value.vBool b) => b

/-- JS property assignment `obj[k] = v` on an object modelled as an association
list: replaces the value when the key is present, appends the key otherwise. -/
def setEntry {β : Type} (k : String) (v : β) : List (String × β) → List (String × β)
  | [] => [(k, v)]
  | (k', v') :: rest => if k' = k then (k, v) :: rest else (k', v') :: setEntry k v rest

/-- JS property read `obj[k]`: `none` models `undefined` (absent key). -/
def getEntry {β : Type} (k : String) : List (String × β) → Option β
  | [] => none
  | (k', v) :: rest => if k' = k then some v else getEntry k rest

/-- The `eventCallbacks_` object: event name ↦ handler, where `none` is the
JS `null` stored by `unsubscribe`. -/
abbrev Registry := List (String × Option Handler)

/-- The `attributes_` object. -/
abbrev Attrs := List (String × Value)

/-- JS `k in obj`: key presence, regardless of the stored value (a `null`
registration still counts as present). -/
def hasKey (m : Registry) (k : String) : Bool :=
  (getEntry k m).isSome

/-- The handler stored under `k`, when the stored property is a function
(present and not `null`). -/
def getFn (m : Registry) (k : String) : Option Handler :=
  match getEntry k m with
  | some (some f) => some f
  | _ => none

/-- A DOM element, of which only the tag name is relevant to the source. -/
structure DomElement where
  tagName : String
deriving DecidableEq

/-- The `environmentVars` argument of `initAd`: the rendering slot and the
video slot, either of which the host may pass as `null`. -/
structure EnvironmentVars where
  slot : Option DomElement
  videoSlot : Option Nat

/-- The state of a `VpaidAd` instance. -/
structure AdState where
  slot : Option DomElement
  videoSlot : Option Nat
  eventCallbacks : Registry
  attributes : Attrs

/-- The `attributes_` object literal built by the constructor. -/
def initialAttributes : Attrs :=
  [("companions", Value.vStr ""),
   ("desiredBitrate", Value.vInt 256),
   ("duration", Value.vInt 30),
   ("expanded", Value.vBool false),
   ("height", Value.vInt 0),
   ("icons", Value.vStr ""),
   ("linear", Value.vBool true),
   ("remainingTime", Value.vInt 10),
   ("skippableState", Value.vBool false),
   ("viewMode", Value.vStr "normal"),
   ("width", Value.vInt 0),
   ("volume", Value.vInt 50)]

/-- The `VpaidAd` constructor (the `getVPAIDAd` factory returns exactly this). -/
def mkVpaidAd : AdState :=
  { slot := none, videoSlot := none, eventCallbacks := [], attributes := initialAttributes }

/-- Result of one public operation: the resulting instance state, the handler
invocations performed in order, the messages written to the log sink, and
whether the call ran to completion (`ok := false` records a TypeError raised
by invoking a property that is not a function). -/
structure OpResult where
  state : AdState
  events : List Handler
  logs : List String
  ok : Bool

/-- Models the JS call `callbacks[k]()`: returns the invocation performed and
whether it succeeded; calling an absent (`undefined`) or `null` property is a
TypeError. -/
def invokeCallback (m : Registry) (k : String) : List Handler × Bool :=
  match getFn m k with
  | some f => ([f], true)
  | none => ([], false)

/-- Models the JS pattern that guards the invocation of the property `k` on the
test `g in callbacks`; the guard key `g` and the invoked key `k` differ in
`startAd` and `stopAd`. -/
def emitIfKey (m : Registry) (g k : String) : List Handler × Bool :=
  if hasKey m g then invokeCallback m k else ([], true)

/-- Models `renderSlot_`'s effect on the stored slot: when the slot is absent
or not a DIV the unit creates its own DIV container. -/
def renderSlot : Option DomElement → Option DomElement
  | some e => if e.tagName = "DIV" then some e else some { tagName := "DIV" }
  | none => some { tagName := "DIV" }

/-- `initAd`: stores the slots from `environmentVars`, writes the width,
height, viewMode and desiredBitrate attributes, then invokes the `AdLoaded`
property unconditionally (a TypeError when no such handler is stored). -/
def initAd (s : AdState) (width height : Int) (viewMode : String) (desiredBitrate : Int)
    (creativeData : Nat) (env : EnvironmentVars) : OpResult :=
  let attrs1 : Attrs :=
    setEntry "desiredBitrate" (Value.vInt desiredBitrate)
      (setEntry "viewMode" (Value.vStr viewMode)
        (setEntry "height" (Value.vInt height)
          (setEntry "width" (Value.vInt width) s.attributes)))
  let s1 : AdState :=
    { s with slot := renderSlot env.slot, videoSlot := env.videoSlot, attributes := attrs1 }
  let r := invokeCallback s1.eventCallbacks "AdLoaded"
  { state := s1,
    events := r.1,
    logs := ["initAd " ++ toString width ++ "x" ++ toString height ++ " " ++ viewMode
              ++ " " ++ toString desiredBitrate],
    ok := r.2 }

/-- `handshakeVersion`: returns the fixed supported version regardless of the
host's requested version. -/
def handshakeVersion (version : String) : String :=
  "2.0"

/-- `startAd`: guards on the key `"AdStart"` but invokes `"AdStarted"`. -/
def startAd (s : AdState) : OpResult :=
  let r := emitIfKey s.eventCallbacks "AdStart" "AdStarted"
  { state := s, events := r.1, logs := ["Starting ad"], ok := r.2 }

/-- `stopAd`: guards on the key `"AdStop"` but invokes `"AdStopped"`. -/
def stopAd (s : AdState) : OpResult :=
  let r := emitIfKey s.eventCallbacks "AdStop" "AdStopped"
  { state := s, events := r.1, logs := ["Stopping ad"], ok := r.2 }

/-- `setAdVolume`: stores the value unmodified, then emits `AdVolumeChange`
when that key is present. -/
def setAdVolume (s : AdState) (value : Int) : OpResult :=
  let s1 : AdState := { s with attributes := setEntry "volume" (Value.vInt value) s.attributes }
  let r := emitIfKey s1.eventCallbacks "AdVolumeChange" "AdVolumeChange"
  { state := s1, events := r.1, logs := ["setAdVolume " ++ toString value], ok := r.2 }

/-- `getAdVolume`: pure read of the `volume` attribute. -/
def getAdVolume (s : AdState) : Option Value :=
  getEntry "volume" s.attributes

/-- `resizeAd`: writes width, height and viewMode, then emits `AdSizeChange`
when that key is present. -/
def resizeAd (s : AdState) (width height : Int) (viewMode : String) : OpResult :=
  let attrs1 : Attrs :=
    setEntry "viewMode" (Value.vStr viewMode)
      (setEntry "height" (Value.vInt height)
        (setEntry "width" (Value.vInt width) s.attributes))
  let s1 : AdState := { s with attributes := attrs1 }
  let r := emitIfKey s1.eventCallbacks "AdSizeChange" "AdSizeChange"
  { state := s1, events := r.1,
    logs := ["resizeAd " ++ toString width ++ "x" ++ toString height ++ " " ++ viewMode],
    ok := r.2 }

/-- `pauseAd`: emits `AdPaused` when that key is present. -/
def pauseAd (s : AdState) : OpResult :=
  let r := emitIfKey s.eventCallbacks "AdPaused" "AdPaused"
  { state := s, events := r.1, logs := ["pauseAd"], ok := r.2 }

/-- `resumeAd`: emits `AdResumed` when that key is present. -/
def resumeAd (s : AdState) : OpResult :=
  let r := emitIfKey s.eventCallbacks "AdResumed" "AdResumed"
  { state := s, events := r.1, logs := ["resumeAd"], ok := r.2 }

/-- `expandAd`: sets `expanded` to true, then emits `AdExpanded` when that key
is present. -/
def expandAd (s : AdState) : OpResult :=
  let s1 : AdState := { s with attributes := setEntry "expanded" (Value.vBool true) s.attributes }
  let r := emitIfKey s1.eventCallbacks "AdExpanded" "AdExpanded"
  { state := s1, events := r.1, logs := ["expandAd"], ok := r.2 }

/-- `getAdExpanded`: pure read of the `expanded` attribute. -/
def getAdExpanded (s : AdState) : Option Value :=
  getEntry "expanded" s.attributes

/-- `getAdSkippableState`: pure read of the `skippableState` attribute. -/
def getAdSkippableState (s : AdState) : Option Value :=
  getEntry "skippableState" s.attributes

/-- `collapseAd`: sets `expanded` to false and emits nothing. -/
def collapseAd (s : AdState) : OpResult :=
  let s1 : AdState := { s with attributes := setEntry "expanded" (Value.vBool false) s.attributes }
  { state := s1, events := [], logs := ["collapseAd"], ok := true }

/-- `skipAd`: when the `skippableState` attribute is truthy, invokes the
`AdSkipped` property if that key is present (a TypeError when the stored
value is `null`) and otherwise records a diagnostic message; when the
attribute is falsy, does nothing beyond its entry log. -/
def skipAd (s : AdState) : OpResult :=
  if truthy (getEntry "skippableState" s.attributes) then
    if hasKey s.eventCallbacks "AdSkipped" then
      let r := invokeCallback s.eventCallbacks "AdSkipped"
      { state := s, events := r.1, logs := ["skipAd"], ok := r.2 }
    else
      { state := s, events := [], logs := ["skipAd", "Error: Invalid ad skip request."],
        ok := true }
  else
    { state := s, events := [], logs := ["skipAd"], ok := true }

/-- `subscribe(aCallback, eventName, aContext)`: stores the context-bound
callback under `eventName`, overwriting any prior registration; the context
binding fixes only the receiver and is identity on the handler here. -/
def subscribe (s : AdState) (aCallback : Handler) (eventName : String)
    (aContext : Nat) : OpResult :=
  let s1 : AdState :=
    { s with eventCallbacks := setEntry eventName (some aCallback) s.eventCallbacks }
  { state := s1, events := [], logs := ["Subscribe " ++ toString aCallback], ok := true }

/-- `unsubscribe(eventName)`: assigns `null` to the property (the key itself
remains present in the object). -/
def unsubscribe (s : AdState) (eventName : String) : OpResult :=
  let s1 : AdState := { s with eventCallbacks := setEntry eventName none s.eventCallbacks }
  { state := s1, events := [], logs := ["unsubscribe " ++ eventName], ok := true }

/-- `getAdWidth`: pure read of the `width` attribute. -/
def getAdWidth (s : AdState) : Option Value :=
  getEntry "width" s.attributes

/-- `getAdHeight`: pure read of the `height` attribute. -/
def getAdHeight (s : AdState) : Option Value :=
  getEntry "height" s.attributes

/-- One public state-affecting operation of the `VpaidAd` interface, used to
quantify over call sequences. Pure getters and `handshakeVersion` read no
state and change none, so they are omitted from the alphabet. -/
inductive Op where
  | opInitAd (width height : Int) (viewMode : String) (desiredBitrate : Int)
      (creativeData : Nat) (env : EnvironmentVars)
  | opStartAd
  | opStopAd
  | opPauseAd
  | opResumeAd
  | opResizeAd (width height : Int) (viewMode : String)
  | opSetAdVolume (value : Int)
  | opExpandAd
  | opCollapseAd
  | opSkipAd
  | opSubscribe (aCallback : Handler) (eventName : String) (aContext : Nat)
  | opUnsubscribe (eventName : String)

/-- The state reached after one operation (the instance's fields mutate
before any TypeError can be raised, so the state survives a failing call). -/
def applyOp (s : AdState) : Op → AdState
  | Op.opInitAd w h vm br cd env => (initAd s w h vm br cd env).state
  | Op.opStartAd => (startAd s).state
  | Op.opStopAd => (stopAd s).state
  | Op.opPauseAd => (pauseAd s).state
  | Op.opResumeAd => (resumeAd s).state
  | Op.opResizeAd w h vm => (resizeAd s w h vm).state
  | Op.opSetAdVolume v => (setAdVolume s v).state
  | Op.opExpandAd => (expandAd s).state
  | Op.opCollapseAd => (collapseAd s).state
  | Op.opSkipAd => (skipAd s).state
  | Op.opSubscribe cb e ctx => (subscribe s cb e ctx).state
  | Op.opUnsubscribe e => (unsubscribe s e).state

/-- The state reached from a fresh instance after a sequence of operations. -/
def run (ops : List Op) : AdState :=
  ops.foldl applyOp mkVpaidAd

/-- The key list of an attribute object. -/
def attrKeys (a : Attrs) : List String :=
  a.map Prod.fst

/-- The twelve attribute keys fixed by the constructor. -/
def defaultAttrKeys : List String :=
  ["companions", "desiredBitrate", "duration", "expanded", "height", "icons",
   "linear", "remainingTime", "skippableState", "viewMode", "width", "volume"]

/-- A state with `skippableState` forced truthy and an `AdSkipped` handler
registered, exercising the skip branch. -/
def sSkipReady : AdState :=
  { mkVpaidAd with
    attributes := setEntry "skippableState" (Value.vBool true) mkVpaidAd.attributes,
    eventCallbacks := [("AdSkipped", some 5)] }

/-- A state with `skippableState` forced truthy and nothing subscribed,
exercising the diagnostic branch of `skipAd`. -/
def sSkipNoHandler : AdState :=
  { mkVpaidAd with
    attributes := setEntry "skippableState" (Value.vBool true) mkVpaidAd.attributes }

theorem getEntry_setEntry_self {β : Type} (k : String) (v : β) (l : List (String × β)) :
    getEntry k (setEntry k v l) = some v := by
  induction l with
  | nil => simp [setEntry, getEntry]
  | cons p rest ih =>
    obtain ⟨a, b⟩ := p
    by_cases h : a = k
    · simp [setEntry, getEntry, h]
    · simp [setEntry, getEntry, h, ih]

theorem getEntry_setEntry_ne {β : Type} {k k' : String} (v : β) (l : List (String × β))
    (hne : k' ≠ k) : getEntry k (setEntry k' v l) = getEntry k l := by
  induction l with
  | nil => simp [setEntry, getEntry, hne]
  | cons p rest ih =>
    obtain ⟨a, b⟩ := p
    by_cases h : a = k'
    · simp [setEntry, getEntry, h, hne]
    · by_cases h2 : a = k
      · simp [setEntry, getEntry, h, h2, Ne.symm hne]
      · simp [setEntry, getEntry, h, h2, ih]

theorem mapFst_setEntry_of_mem {β : Type} (k : String) (v : β) (l : List (String × β))
    (hk : k ∈ l.map Prod.fst) : (setEntry k v l).map Prod.fst = l.map Prod.fst := by
  induction l with
  | nil => simp at hk
  | cons p rest ih =>
    obtain ⟨a, b⟩ := p
    by_cases h : a = k
    · simp [setEntry, h]
    · simp only [List.map_cons, List.mem_cons] at hk
      rcases hk with h1 | h1
      · exact absurd h1.symm h
      · simp [setEntry, h, ih h1]

theorem hasKey_of_getFn {m : Registry} {k : String} {f : Handler}
    (hf : getFn m k = some f) : hasKey m k = true := by
  unfold getFn at hf
  unfold hasKey
  cases he : getEntry k m with
  | none => rw [he] at hf; exact absurd hf (by simp)
  | some o => simp [he]

theorem initAd_state_attrs (s : AdState) (w h : Int) (vm : String) (br : Int)
    (cd : Nat) (env : EnvironmentVars) :
    (initAd s w h vm br cd env).state.attributes =
      setEntry "desiredBitrate" (Value.vInt br)
        (setEntry "viewMode" (Value.vStr vm)
          (setEntry "height" (Value.vInt h)
            (setEntry "width" (Value.vInt w) s.attributes))) := rfl

theorem initAd_events (s : AdState) (w h : Int) (vm : String) (br : Int)
    (cd : Nat) (env : EnvironmentVars) :
    (initAd s w h vm br cd env).events = (invokeCallback s.eventCallbacks "AdLoaded").1 := rfl

theorem initAd_ok (s : AdState) (w h : Int) (vm : String) (br : Int)
    (cd : Nat) (env : EnvironmentVars) :
    (initAd s w h vm br cd env).ok = (invokeCallback s.eventCallbacks "AdLoaded").2 := rfl

theorem setAdVolume_state_attrs (s : AdState) (v : Int) :
    (setAdVolume s v).state.attributes = setEntry "volume" (Value.vInt v) s.attributes := rfl

theorem resizeAd_state_attrs (s : AdState) (w h : Int) (vm : String) :
    (resizeAd s w h vm).state.attributes =
      setEntry "viewMode" (Value.vStr vm)
        (setEntry "height" (Value.vInt h)
          (setEntry "width" (Value.vInt w) s.attributes)) := rfl

theorem expandAd_state_attrs (s : AdState) :
    (expandAd s).state.attributes = setEntry "expanded" (Value.vBool true) s.attributes := rfl

theorem collapseAd_state_attrs (s : AdState) :
    (collapseAd s).state.attributes = setEntry "expanded" (Value.vBool false) s.attributes := rfl

theorem skipAd_state (s : AdState) : (skipAd s).state = s := by
  unfold skipAd
  split
  · split
    · rfl
    · rfl
  · rfl

theorem attrKeys_setEntry (k : String) (v : Value) (a : Attrs)
    (ha : attrKeys a = defaultAttrKeys) (hk : k ∈ defaultAttrKeys) :
    attrKeys (setEntry k v a) = defaultAttrKeys := by
  unfold attrKeys at ha ⊢
  rw [mapFst_setEntry_of_mem k v a (by rw [ha]; exact hk), ha]

theorem applyOp_keys_fixed (s : AdState) (op : Op)
    (hs : attrKeys s.attributes = defaultAttrKeys) :
    attrKeys (applyOp s op).attributes = defaultAttrKeys := by
  cases op with
  | opInitAd w h vm br cd env =>
    have h1 := attrKeys_setEntry "width" (Value.vInt w) s.attributes hs (by decide)
    have h2 := attrKeys_setEntry "height" (Value.vInt h) _ h1 (by decide)
    have h3 := attrKeys_setEntry "viewMode" (Value.vStr vm) _ h2 (by decide)
    have h4 := attrKeys_setEntry "desiredBitrate" (Value.vInt br) _ h3 (by decide)
    simpa [applyOp, initAd_state_attrs] using h4
  | opStartAd => exact hs
  | opStopAd => exact hs
  | opPauseAd => exact hs
  | opResumeAd => exact hs
  | opResizeAd w h vm =>
    have h1 := attrKeys_setEntry "width" (Value.vInt w) s.attributes hs (by decide)
    have h2 := attrKeys_setEntry "height" (Value.vInt h) _ h1 (by decide)
    have h3 := attrKeys_setEntry "viewMode" (Value.vStr vm) _ h2 (by decide)
    simpa [applyOp, resizeAd_state_attrs] using h3
  | opSetAdVolume v =>
    have h1 := attrKeys_setEntry "volume" (Value.vInt v) s.attributes hs (by decide)
    simpa [applyOp, setAdVolume_state_attrs] using h1
  | opExpandAd =>
    have h1 := attrKeys_setEntry "expanded" (Value.vBool true) s.attributes hs (by decide)
    simpa [applyOp, expandAd_state_attrs] using h1
  | opCollapseAd =>
    have h1 := attrKeys_setEntry "expanded" (Value.vBool false) s.attributes hs (by decide)
    simpa [applyOp, collapseAd_state_attrs] using h1
  | opSkipAd => simpa [applyOp, skipAd_state] using hs
  | opSubscribe cb e ctx => exact hs
  | opUnsubscribe e => exact hs

theorem skippable_step (s : AdState) (op : Op)
    (hs : getEntry "skippableState" s.attributes = some (Value.vBool false)) :
    getEntry "skippableState" (applyOp s op).attributes = some (Value.vBool false) := by
  cases op with
  | opInitAd w h vm br cd env =>
    simp only [applyOp, initAd_state_attrs]
    rw [getEntry_setEntry_ne, getEntry_setEntry_ne, getEntry_setEntry_ne,
        getEntry_setEntry_ne] <;> first | exact hs | decide
  | opStartAd => exact hs
  | opStopAd => exact hs
  | opPauseAd => exact hs
  | opResumeAd => exact hs
  | opResizeAd w h vm =>
    simp only [applyOp, resizeAd_state_attrs]
    rw [getEntry_setEntry_ne, getEntry_setEntry_ne, getEntry_setEntry_ne] <;>
      first | exact hs | decide
  | opSetAdVolume v =>
    simp only [applyOp, setAdVolume_state_attrs]
    rw [getEntry_setEntry_ne] <;> first | exact hs | decide
  | opExpandAd =>
    simp only [applyOp, expandAd_state_attrs]
    rw [getEntry_setEntry_ne] <;> first | exact hs | decide
  | opCollapseAd =>
    simp only [applyOp, collapseAd_state_attrs]
    rw [getEntry_setEntry_ne] <;> first | exact hs | decide
  | opSkipAd => simpa [applyOp, skipAd_state] using hs
  | opSubscribe cb e ctx => exact hs
  | opUnsubscribe e => exact hs

theorem skippable_run (ops : List Op) (s : AdState)
    (hs : getEntry "skippableState" s.attributes = some (Value.vBool false)) :
    getEntry "skippableState" (ops.foldl applyOp s).attributes = some (Value.vBool false) := by
  induction ops generalizing s with
  | nil => exact hs
  | cons op rest ih => exact ih (applyOp s op) (skippable_step s op hs)

/-- Claim C1 (refuted by the code): subscribing a handler under the emitted
event name "AdStarted" and then calling `startAd` does not invoke it, because
`startAd` guards its invocation on the distinct key "AdStart"; likewise a
handler subscribed under "AdStopped" is not invoked by `stopAd`, which guards
on "AdStop". Evaluated at the failing inputs from a fresh unit. -/
theorem c1_start_stop_key_mismatch :
    (startAd (subscribe mkVpaidAd 7 "AdStarted" 0).state).events = []
    ∧ (startAd (subscribe mkVpaidAd 7 "AdStarted" 0).state).ok = true
    ∧ (stopAd (subscribe mkVpaidAd 7 "AdStopped" 0).state).events = []
    ∧ hasKey (subscribe mkVpaidAd 7 "AdStarted" 0).state.eventCallbacks "AdStart" = false := by
  decide

/-- Claim C2 (refuted by the code): after `subscribe` then `unsubscribe` of
"AdPaused", calling `pauseAd` raises a TypeError rather than being a no-op,
because `unsubscribe` stores `null` and the key-presence guard still passes;
invoking a never-registered event, by contrast, is fine. -/
theorem c2_unsubscribe_not_noop :
    (pauseAd (unsubscribe (subscribe mkVpaidAd 7 "AdPaused" 0).state "AdPaused").state).ok
      = false
    ∧ (pauseAd (unsubscribe (subscribe mkVpaidAd 7 "AdPaused" 0).state "AdPaused").state).events
      = []
    ∧ (pauseAd mkVpaidAd).ok = true := by
  decide

/-- Claim C3 (refuted by the code): `initAd` on a fresh unit with no handler
subscribed raises a TypeError, because it invokes the "AdLoaded" property
unconditionally; so there is a fatal error path. -/
theorem c3_initAd_without_subscription_fails :
    (initAd mkVpaidAd 300 250 "normal" 256 0 { slot := none, videoSlot := none }).ok = false
    ∧ (initAd mkVpaidAd 300 250 "normal" 256 0 { slot := none, videoSlot := none }).events
      = [] := by
  decide

/-- Claim C4: for every starting state and all arguments, `initAd` stores the
given width, height, viewMode and desiredBitrate, observable via `getAdWidth`
and `getAdHeight`; and when a function is registered under "AdLoaded" it
invokes that handler exactly once and completes without error. -/
theorem c4_initAd_loads_and_sets (s : AdState) (w h : Int) (vm : String) (br : Int)
    (cd : Nat) (env : EnvironmentVars) :
    getAdWidth (initAd s w h vm br cd env).state = some (Value.vInt w)
    ∧ getAdHeight (initAd s w h vm br cd env).state = some (Value.vInt h)
    ∧ getEntry "viewMode" (initAd s w h vm br cd env).state.attributes = some (Value.vStr vm)
    ∧ getEntry "desiredBitrate" (initAd s w h vm br cd env).state.attributes
      = some (Value.vInt br)
    ∧ ∀ f : Handler, getFn s.eventCallbacks "AdLoaded" = some f →
        (initAd s w h vm br cd env).events = [f] ∧ (initAd s w h vm br cd env).ok = true := by
  refine ⟨?_, ?_, ?_, ?_, ?_⟩
  · unfold getAdWidth
    rw [initAd_state_attrs, getEntry_setEntry_ne, getEntry_setEntry_ne, getEntry_setEntry_ne,
        getEntry_setEntry_self] <;> decide
  · unfold getAdHeight
    rw [initAd_state_attrs, getEntry_setEntry_ne, getEntry_setEntry_ne,
        getEntry_setEntry_self] <;> decide
  · rw [initAd_state_attrs, getEntry_setEntry_ne, getEntry_setEntry_self] <;> decide
  · rw [initAd_state_attrs, getEntry_setEntry_self]
  · intro f hf
    rw [initAd_events, initAd_ok]
    simp [invokeCallback, hf]

/-- Witness for C4 at the documented scenario: subscribe "AdLoaded", then
`initAd 300 250 "normal" 256`; the recorder is invoked once without error. -/
theorem c4_initAd_loads_and_sets_witness :
    getFn (subscribe mkVpaidAd 7 "AdLoaded" 0).state.eventCallbacks "AdLoaded" = some 7
    ∧ ((initAd (subscribe mkVpaidAd 7 "AdLoaded" 0).state 300 250 "normal" 256 0
          { slot := none, videoSlot := none }).events = [7]
        ∧ (initAd (subscribe mkVpaidAd 7 "AdLoaded" 0).state 300 250 "normal" 256 0
          { slot := none, videoSlot := none }).ok = true) :=
  ⟨by decide,
   (c4_initAd_loads_and_sets (subscribe mkVpaidAd 7 "AdLoaded" 0).state 300 250 "normal" 256 0
      { slot := none, videoSlot := none }).2.2.2.2 7 (by decide)⟩

/-- Claim C5: `skipAd` invokes a handler only when `skippableState` is truthy;
when it is falsy nothing is invoked and no error is raised, regardless of
registration; when truthy with a function registered under "AdSkipped" that
handler is invoked exactly once; when truthy with the key absent only a
diagnostic message is recorded and no exception is raised; the state is
unchanged, so subsequent calls still succeed. -/
theorem c5_skipAd_spec (s : AdState) :
    ((skipAd s).events ≠ [] → truthy (getEntry "skippableState" s.attributes) = true)
    ∧ (truthy (getEntry "skippableState" s.attributes) = false →
        (skipAd s).events = [] ∧ (skipAd s).ok = true)
    ∧ (∀ f : Handler, truthy (getEntry "skippableState" s.attributes) = true →
        getFn s.eventCallbacks "AdSkipped" = some f →
        (skipAd s).events = [f] ∧ (skipAd s).ok = true)
    ∧ (truthy (getEntry "skippableState" s.attributes) = true →
        hasKey s.eventCallbacks "AdSkipped" = false →
        (skipAd s).events = [] ∧ (skipAd s).ok = true
          ∧ "Error: Invalid ad skip request." ∈ (skipAd s).logs)
    ∧ (skipAd s).state = s := by
  refine ⟨?_, ?_, ?_, ?_, skipAd_state s⟩
  · intro hev
    by_cases ht : truthy (getEntry "skippableState" s.attributes) = true
    · exact ht
    · exact absurd (by simp [skipAd, ht]) hev
  · intro hc
    simp [skipAd, hc]
  · intro f ht hf
    have hk := hasKey_of_getFn hf
    simp [skipAd, ht, hk, invokeCallback, hf]
  · intro ht hk
    simp [skipAd, ht, hk]

/-- Witness for C5 at concrete states covering the falsy branch, the
truthy-and-registered branch and the truthy-diagnostic branch. -/
theorem c5_skipAd_spec_witness :
    ((skipAd mkVpaidAd).events = [] ∧ (skipAd mkVpaidAd).ok = true)
    ∧ ((skipAd sSkipReady).events = [5] ∧ (skipAd sSkipReady).ok = true)
    ∧ ((skipAd sSkipNoHandler).events = [] ∧ (skipAd sSkipNoHandler).ok = true
        ∧ "Error: Invalid ad skip request." ∈ (skipAd sSkipNoHandler).logs) :=
  ⟨(c5_skipAd_spec mkVpaidAd).2.1 (by decide),
   (c5_skipAd_spec sSkipReady).2.2.1 5 (by decide) (by decide),
   (c5_skipAd_spec sSkipNoHandler).2.2.2.1 (by decide) (by decide)⟩

/-- Claim C6: for every starting state and every integer `v`, `getAdVolume`
after `setAdVolume v` returns exactly `v`; no clamping is performed. -/
theorem c6_setAdVolume_getAdVolume (s : AdState) (v : Int) :
    getAdVolume (setAdVolume s v).state = some (Value.vInt v) := by
  unfold getAdVolume
  rw [setAdVolume_state_attrs, getEntry_setEntry_self]

/-- Claim C7: `handshakeVersion` returns the fixed string "2.0" for every input
string, including the empty string and unsupported version strings. -/
theorem c7_handshakeVersion_constant (version : String) : handshakeVersion version = "2.0" :=
  rfl

/-- Claim C8: with a handler subscribed under "AdExpanded", `expandAd` invokes
it exactly once and makes `getAdExpanded` true; a following `collapseAd` makes
`getAdExpanded` false and invokes no handler. -/
theorem c8_expand_collapse (s : AdState) (cb ctx : Nat) :
    (expandAd (subscribe s cb "AdExpanded" ctx).state).events = [cb]
    ∧ (expandAd (subscribe s cb "AdExpanded" ctx).state).ok = true
    ∧ getAdExpanded (expandAd (subscribe s cb "AdExpanded" ctx).state).state
      = some (Value.vBool true)
    ∧ (collapseAd (expandAd (subscribe s cb "AdExpanded" ctx).state).state).events = []
    ∧ getAdExpanded (collapseAd (expandAd (subscribe s cb "AdExpanded" ctx).state).state).state
      = some (Value.vBool false) := by
  have hm : getEntry "AdExpanded" (setEntry "AdExpanded" (some cb) s.eventCallbacks)
      = some (some cb) := getEntry_setEntry_self _ _ _
  refine ⟨?_, ?_, ?_, rfl, ?_⟩
  · simp [expandAd, subscribe, emitIfKey, hasKey, getFn, invokeCallback, hm]
  · simp [expandAd, subscribe, emitIfKey, hasKey, getFn, invokeCallback, hm]
  · unfold getAdExpanded
    rw [expandAd_state_attrs, getEntry_setEntry_self]
  · unfold getAdExpanded
    rw [collapseAd_state_attrs, getEntry_setEntry_self]

/-- Claim C9: the attribute key set is fixed at construction to exactly the
twelve documented keys, and no operation adds a key to it or removes a key
from it. -/
theorem c9_attribute_keys_fixed :
    attrKeys mkVpaidAd.attributes = defaultAttrKeys
    ∧ ∀ (s : AdState) (op : Op), attrKeys s.attributes = defaultAttrKeys →
        attrKeys (applyOp s op).attributes = defaultAttrKeys :=
  ⟨by decide, fun s op hs => applyOp_keys_fixed s op hs⟩

/-- Witness for C9 at the fresh unit and a concrete volume-setting operation. -/
theorem c9_attribute_keys_fixed_witness :
    attrKeys mkVpaidAd.attributes = defaultAttrKeys
    ∧ attrKeys (applyOp mkVpaidAd (Op.opSetAdVolume 80)).attributes = defaultAttrKeys :=
  ⟨by decide, c9_attribute_keys_fixed.2 mkVpaidAd (Op.opSetAdVolume 80) (by decide)⟩

/-- Claim C10: `skippableState` is false at construction and remains false
after every sequence of public operations, so in every reachable state
`skipAd` invokes no handler and raises no error, whatever the host
subscribed. -/
theorem c10_skipAd_never_fires (ops : List Op) :
    getEntry "skippableState" (run ops).attributes = some (Value.vBool false)
    ∧ (skipAd (run ops)).events = [] ∧ (skipAd (run ops)).ok = true := by
  have h : getEntry "skippableState" (run ops).attributes = some (Value.vBool false) :=
    skippable_run ops mkVpaidAd (by decide)
  refine ⟨h, ?_, ?_⟩
  · simp [skipAd, h, truthy]
  · simp [skipAd, h, truthy]

end Vpaid
